import Mathlib

/-!
Shallow embedding of the scoring/classification core of the
Grammar Scoring Engine (`Grammar Scoring Engine.py`), together with
proofs of the specified properties.

Python strings are modelled as Lean `String`s (ASCII-faithful); Python
floats are modelled as exact rationals `ℚ`; Python dicts whose key sets
matter are modelled as association lists `List (String × ·)` with
`lookup`-with-default for `dict.get`.
-/

namespace GSE

/-! ## Python string primitives -/

/-- Python's `sub in s` substring test. -/
def containsSub (sub s : String) : Bool :=
  decide (sub.toList <:+: s.toList)

/-- Python's `s.lower()` (ASCII-faithful): lowercase every character. -/
def pyLower (s : String) : String :=
  ⟨s.data.map Char.toLower⟩

/-- Scan step for `countOcc`, structurally recursive on a fuel argument so
that it evaluates inside the kernel; one unit of fuel is spent per
position examined, and the scan consumes at least one character per unit,
so `hay.length` fuel always suffices. -/
def countOccAux (needle : List Char) : Nat → List Char → Nat
  | 0, _ => 0
  | _ + 1, [] => 0
  | fuel + 1, c :: rest =>
    if needle.isPrefixOf (c :: rest) then
      countOccAux needle fuel (List.drop (needle.length - 1) rest) + 1
    else
      countOccAux needle fuel rest

/-- Python's `str.count(sub)`: number of non-overlapping occurrences of
`needle`, scanning left to right (source semantics of `str.count`). -/
def countOcc (needle hay : List Char) : Nat :=
  countOccAux needle hay.length hay

/-- Python's `hay.count(sub)` on strings. -/
def strCount (hay sub : String) : Nat :=
  countOcc sub.toList hay.toList

/-- Helper for `wordCount`: walks the characters keeping an in-word flag,
counting the starts of maximal non-whitespace runs. -/
def countWordsAux : List Char → Bool → Nat
  | [], _ => 0
  | c :: rest, inWord =>
    if c.isWhitespace then countWordsAux rest false
    else (if inWord then 0 else 1) + countWordsAux rest true

/-- Python's `len(s.split())`: number of maximal whitespace-free runs. -/
def wordCount (s : String) : Nat :=
  countWordsAux s.toList false

/-- Python's `round(x, 2)` on an exact rational: scale by 100 and round
half to even (banker's rounding), then unscale. -/
def pyRound2 (x : ℚ) : ℚ :=
  let y := x * 100
  let f : ℤ := Int.floor y
  let r : ℚ := y - (f : ℚ)
  let n : ℤ :=
    if r < 1/2 then f
    else if 1/2 < r then f + 1
    else if f % 2 = 0 then f else f + 1
  (n : ℚ) / 100

/-! ## Data model -/

/-- One `language_tool_python` match (an IssueMatch). -/
structure IssueMatch where
  ruleId : String
  message : String
  context : String
  replacements : List String
  offset : Nat
  errorLength : Nat
deriving DecidableEq, Repr

/-- The metrics dictionary built by `compute_metrics`. -/
structure Metrics where
  score : ℚ
  word_count : Nat
  wpm : ℚ
  filler_count : Nat
  errors : List (String × Nat)
deriving DecidableEq, Repr

/-! ## Global constants -/

/-- The `ERROR_WEIGHTS` table (weights per error category; `STYLE` weighs `1.5`). -/
def ERROR_WEIGHTS : List (String × ℚ) :=
  [("GRAMMAR", 3), ("TYPOS", 2), ("PUNCTUATION", 1), ("STYLE", 3/2)]

/-- The `FILLER_WORDS` lexicon. -/
def FILLER_WORDS : List String :=
  ["um", "uh", "like", "you know", "ah", "er"]

/-- Lookup `ERROR_WEIGHTS[cat]` (every category produced by `classify_error` is a
key of `ERROR_WEIGHTS`, so the default is never taken in the program). -/
def weightOf (cat : String) : ℚ :=
  (List.lookup cat ERROR_WEIGHTS).getD 0

/-- Python's `error_breakdown.get(cat, 0)`. -/
def bdGet (bd : List (String × Nat)) (cat : String) : Nat :=
  (List.lookup cat bd).getD 0

/-! ## classify_error -/

/-- Models `classify_error(match)`: first matching rule wins; default `GRAMMAR`. -/
def classify_error (m : IssueMatch) : String :=
  let message := pyLower m.message
  if m.ruleId == "MORFOLOGIK_RULE_EN_US" || containsSub "spelling" message then
    "TYPOS"
  else if containsSub "punctuation" message then
    "PUNCTUATION"
  else if containsSub "style" message || containsSub "readability" message then
    "STYLE"
  else
    "GRAMMAR"

/-! ## Scorer (lines 296–297 of `check_grammar`) -/

/-- The weighted penalty `sum(ERROR_WEIGHTS[cat] * count for cat, count in
error_breakdown.items())`. -/
def weighted_penalty (bd : List (String × Nat)) : ℚ :=
  (bd.map (fun p => weightOf p.1 * (p.2 : ℚ))).sum

/-- The scorer `overall_score = max(100 - weighted_penalty, 0)`. -/
def overall_score_of (bd : List (String × Nat)) : ℚ :=
  max (100 - weighted_penalty bd) 0

/-- An `error_breakdown` dict with the four fixed keys, in the insertion
order used at line 276. -/
def mkBreakdown (g t p s : Nat) : List (String × Nat) :=
  [("GRAMMAR", g), ("TYPOS", t), ("PUNCTUATION", p), ("STYLE", s)]

/-! ## compute_metrics -/

/-- Models `compute_metrics(transcript, audio_duration, error_breakdown,
overall_score)`. -/
def compute_metrics (transcript : String) (audio_duration : ℚ)
    (error_breakdown : List (String × Nat)) (overall_score : ℚ) : Metrics :=
  let word_count := wordCount transcript
  let wpm : ℚ :=
    if audio_duration > 0 then
      pyRound2 ((word_count : ℚ) / (audio_duration / 60))
    else 0
  let transcript_lower := pyLower transcript
  let filler_count := (FILLER_WORDS.map (fun f => strCount transcript_lower f)).sum
  { score := overall_score
    word_count := word_count
    wpm := wpm
    filler_count := filler_count
    errors :=
      [("GRAMMAR", bdGet error_breakdown "GRAMMAR"),
       ("TYPOS", bdGet error_breakdown "TYPOS"),
       ("PUNCTUATION", bdGet error_breakdown "PUNCTUATION")] }

/-! ## check_grammar -/

/-- The `error_info` string formatted for one match inside `check_grammar`,
including the first suggested replacement (or the fallback text). -/
def errorInfoOf (m : IssueMatch) (category : String) : String :=
  let suggestion :=
    match m.replacements with
    | [] => "No suggestion available"
    | r :: _ => r
  let explanation :=
    "This error occurs because: " ++ m.message ++ ". Context: '" ++ m.context ++ "'."
  "Error: " ++ m.message ++ "\n" ++
    "Category: " ++ category ++ "\n" ++
    "Context: '" ++ m.context ++ "'\n" ++
    "Suggested Correction: " ++ suggestion ++ "\n" ++
    "Explanation: " ++ explanation ++ "\n" ++
    "-----"

/-- Python's `error_breakdown[category] += 1` on the association-list model. -/
def bdIncr (bd : List (String × Nat)) (cat : String) : List (String × Nat) :=
  bd.map (fun p => if p.1 = cat then (p.1, p.2 + 1) else p)

/-- One iteration of the `for match in matches` loop of `check_grammar`:
appends the formatted detail and bumps the category counter. -/
def checkStep (acc : List String × List (String × Nat)) (m : IssueMatch) :
    List String × List (String × Nat) :=
  let category := classify_error m
  (acc.1 ++ [errorInfoOf m category], bdIncr acc.2 category)

/-- Models `check_grammar(text)`, taken over the list of matches returned by
the external `tool.check(text)`: returns
`(overall_score, error_details, error_breakdown, total_errors)`. -/
def check_grammar (matchList : List IssueMatch) :
    ℚ × List String × List (String × Nat) × Nat :=
  let res := matchList.foldl checkStep ([], mkBreakdown 0 0 0 0)
  let error_details := res.1
  let error_breakdown := res.2
  let overall_score := overall_score_of error_breakdown
  (overall_score, error_details, error_breakdown, matchList.length)

/-! ## contextual_language_feedback -/

/-- The suggestions appended for one `detail` string by the loop body of
`contextual_language_feedback` (four independent `if`s, in source order). -/
def suggestionsFor (detail : String) : List String :=
  (if containsSub "Category: TYPOS" detail then
    ["Review suggested corrections for typos and consider using a spell-checker."]
   else []) ++
  (if containsSub "Category: GRAMMAR" detail then
    ["Review grammar suggestions and study common grammatical patterns."]
   else []) ++
  (if containsSub "Category: PUNCTUATION" detail then
    ["Review punctuation guidelines to improve sentence clarity."]
   else []) ++
  (if containsSub "Category: STYLE" detail then
    ["Consider revising stylistically ambiguous sentences for better readability."]
   else [])

/-- The full `suggestions` list accumulated by the loop, before
deduplication. -/
def rawSuggestions (error_details : List String) : List String :=
  (error_details.map suggestionsFor).flatten

/-- One step of the first-occurrence deduplication: keep `acc` if `x` was
seen already, otherwise append it. -/
def dedupStep (acc : List String) (x : String) : List String :=
  if x ∈ acc then acc else acc ++ [x]

/-- Python's `list(dict.fromkeys(l))`: removes duplicates keeping the first
occurrence of each element. -/
def dedupKeepFirst (l : List String) : List String :=
  l.foldl dedupStep []

/-- Models `contextual_language_feedback(text, error_details)`. -/
def contextual_language_feedback (_text : String) (error_details : List String) :
    String :=
  let suggestions := dedupKeepFirst (rawSuggestions error_details)
  if suggestions.isEmpty then
    "No additional contextual feedback available."
  else
    " ".intercalate suggestions

/-! ## transcribe_audio, process_file, stop_recording

The external collaborators (Whisper, LanguageTool, soundfile, the audio
stream) are modelled as inputs: the transcription attempt is an
`Except` value, `tool.check` is a function from text to matches, and the
side effects of the recording controller are recorded in a trace. -/

/-- Observable side effects of the recording controller. -/
inductive Effect where
  | writeFile (name : String)
  | runPipeline
  | deleteFile (name : String)
  | showError (title msg : String)
deriving DecidableEq, Repr

/-- Models `transcribe_audio(file_path)`: returns the transcript on success; on
failure shows an error dialog and returns the empty string. -/
def transcribe_audio (result : Except String String) : String × List Effect :=
  match result with
  | .ok t => (t, [])
  | .error e =>
    ("", [Effect.showError "Transcription Error" ("Error during transcription: " ++ e)])

/-- The analysis results pushed to the GUI panels after a pipeline run. -/
structure AnalysisDisplay where
  transcript : String
  score : ℚ
  totalErrors : Nat
  errorDetails : List String
  contextualFeedback : String
  metrics : Metrics
deriving DecidableEq, Repr

/-- The shared transcription → grammar-check → metrics pipeline run by both
`process_file` and the non-empty branch of `stop_recording`
(`advanced_style_analysis` consumes only external readability indices and
is out of scope here). -/
def runPipeline (transcribeResult : Except String String)
    (check : String → List IssueMatch) (audio_duration : ℚ) :
    AnalysisDisplay × List Effect :=
  let tr := transcribe_audio transcribeResult
  let transcript := tr.1
  let r := check_grammar (check transcript)
  let contextual_feedback := contextual_language_feedback transcript r.2.1
  let metrics := compute_metrics transcript audio_duration r.2.2.1 r.1
  (⟨transcript, r.1, r.2.2.2, r.2.1, contextual_feedback, metrics⟩, tr.2)

/-- Models `process_file()` after a file was selected: the transcription attempt
and the duration probe (`sf.info`, falling back to 0 on exception) are
inputs. -/
def process_file (transcribeResult : Except String String)
    (durationInfo : Except String ℚ) (check : String → List IssueMatch) :
    AnalysisDisplay × List Effect :=
  let audio_duration :=
    match durationInfo with
    | .ok d => d
    | .error _ => 0
  runPipeline transcribeResult check audio_duration

/-- Recording-controller state: the active-stream flag, the buffered audio
chunks, and the recording start time. -/
structure RecSession where
  streamActive : Bool
  frames : List (List ℚ)
  startTime : ℚ
deriving DecidableEq, Repr

/-- Result of `stop_recording()`: the new session state, the displayed
analysis (possibly unchanged), the timer-label status message, and the
trace of side effects. -/
structure StopResult where
  session : RecSession
  display : AnalysisDisplay
  statusMsg : String
  effects : List Effect
deriving DecidableEq, Repr

/-- Models `stop_recording()`. The guard structure follows the source: if no
stream is active, or no frames were buffered, only a status message is set
and nothing else happens; otherwise the buffered audio is written to the
temporary file, the pipeline runs, and the temporary file is deleted. -/
def stop_recording (sess : RecSession) (disp : AnalysisDisplay)
    (transcribeResult : Except String String)
    (check : String → List IssueMatch) (now : ℚ) : StopResult :=
  if sess.streamActive then
    let sess' : RecSession := { sess with streamActive := false }
    let audio_duration := now - sess.startTime
    if sess.frames.isEmpty then
      { session := sess', display := disp
        statusMsg := "No audio data recorded.", effects := [] }
    else
      let piped := runPipeline transcribeResult check audio_duration
      { session := sess', display := piped.1
        statusMsg := "Recording Stopped"
        effects :=
          [Effect.writeFile "temp_recording.wav"] ++ piped.2 ++
            [Effect.runPipeline, Effect.deleteFile "temp_recording.wav"] }
  else
    { session := sess, display := disp
      statusMsg := "Recording was not started.", effects := [] }

/-! ## Helper lemmas -/

lemma weighted_penalty_mk (g t p s : Nat) :
    weighted_penalty (mkBreakdown g t p s)
      = 3 * (g : ℚ) + 2 * (t : ℚ) + (p : ℚ) + (3/2) * (s : ℚ) := by
  simp [weighted_penalty, mkBreakdown, weightOf, ERROR_WEIGHTS, List.lookup]
  ring

lemma classify_error_mem (m : IssueMatch) :
    classify_error m = "TYPOS" ∨ classify_error m = "PUNCTUATION" ∨
      classify_error m = "STYLE" ∨ classify_error m = "GRAMMAR" := by
  simp only [classify_error]
  split_ifs <;> simp

lemma bdIncr_grammar (g t p s : Nat) :
    bdIncr (mkBreakdown g t p s) "GRAMMAR" = mkBreakdown (g + 1) t p s := by
  simp [bdIncr, mkBreakdown]

lemma bdIncr_typos (g t p s : Nat) :
    bdIncr (mkBreakdown g t p s) "TYPOS" = mkBreakdown g (t + 1) p s := by
  simp [bdIncr, mkBreakdown]

lemma bdIncr_punctuation (g t p s : Nat) :
    bdIncr (mkBreakdown g t p s) "PUNCTUATION" = mkBreakdown g t (p + 1) s := by
  simp [bdIncr, mkBreakdown]

lemma bdIncr_style (g t p s : Nat) :
    bdIncr (mkBreakdown g t p s) "STYLE" = mkBreakdown g t p (s + 1) := by
  simp [bdIncr, mkBreakdown]

lemma foldl_checkStep_sum :
    ∀ (ms : List IssueMatch) (ds : List String) (g t p s : Nat),
      ((((ms.foldl checkStep (ds, mkBreakdown g t p s)).2).map Prod.snd).sum)
        = g + t + p + s + ms.length := by
  intro ms
  induction ms with
  | nil =>
    intro ds g t p s
    simp [mkBreakdown]
    omega
  | cons m ms ih =>
    intro ds g t p s
    rw [List.foldl_cons]
    have hstep :
        checkStep (ds, mkBreakdown g t p s) m
          = (ds ++ [errorInfoOf m (classify_error m)],
             bdIncr (mkBreakdown g t p s) (classify_error m)) := rfl
    rcases classify_error_mem m with h | h | h | h
    · rw [hstep, h, bdIncr_typos, ih]
      simp [List.length_cons]
      omega
    · rw [hstep, h, bdIncr_punctuation, ih]
      simp [List.length_cons]
      omega
    · rw [hstep, h, bdIncr_style, ih]
      simp [List.length_cons]
      omega
    · rw [hstep, h, bdIncr_grammar, ih]
      simp [List.length_cons]
      omega

/-! ## Claim theorems -/

/-- C1: for every breakdown with non-negative integer counts, the scorer
returns `max(100 - (3*GRAMMAR + 2*TYPOS + 1*PUNCTUATION + 1.5*STYLE), 0)`;
the value lies in `[0, 100]`, equals `100` on the all-zero breakdown, and
equals `92` on `{GRAMMAR: 2, TYPOS: 1, PUNCTUATION: 0, STYLE: 0}`. -/
theorem scorer_formula_and_bounds (g t p s : Nat) :
    overall_score_of (mkBreakdown g t p s)
        = max (100 - (3 * (g : ℚ) + 2 * (t : ℚ) + (p : ℚ) + (3/2) * (s : ℚ))) 0 ∧
      0 ≤ overall_score_of (mkBreakdown g t p s) ∧
      overall_score_of (mkBreakdown g t p s) ≤ 100 ∧
      overall_score_of (mkBreakdown 0 0 0 0) = 100 ∧
      overall_score_of (mkBreakdown 2 1 0 0) = 92 := by
  have hpen : (0 : ℚ) ≤ 3 * (g : ℚ) + 2 * (t : ℚ) + (p : ℚ) + (3/2) * (s : ℚ) := by
    positivity
  refine ⟨by rw [overall_score_of, weighted_penalty_mk], le_max_right _ _, ?_, ?_, ?_⟩
  · rw [overall_score_of, weighted_penalty_mk]
    exact max_le (by linarith) (by norm_num)
  · rw [overall_score_of, weighted_penalty_mk]
    norm_num
  · rw [overall_score_of, weighted_penalty_mk]
    norm_num

/-- C5: the scorer is monotonically non-increasing in each category count
individually, the other three counts held fixed. -/
theorem scorer_monotone_each_category (g t p s d : Nat) :
    overall_score_of (mkBreakdown (g + d) t p s)
        ≤ overall_score_of (mkBreakdown g t p s) ∧
      overall_score_of (mkBreakdown g (t + d) p s)
        ≤ overall_score_of (mkBreakdown g t p s) ∧
      overall_score_of (mkBreakdown g t (p + d) s)
        ≤ overall_score_of (mkBreakdown g t p s) ∧
      overall_score_of (mkBreakdown g t p (s + d))
        ≤ overall_score_of (mkBreakdown g t p s) := by
  refine ⟨?_, ?_, ?_, ?_⟩ <;>
    · rw [overall_score_of, overall_score_of, weighted_penalty_mk, weighted_penalty_mk]
      refine max_le_max ?_ le_rfl
      push_cast
      linarith [Nat.cast_nonneg (α := ℚ) d]

/-- C6: the error summary inside the metrics has exactly the keys
`GRAMMAR`, `TYPOS` and `PUNCTUATION`, taken from the breakdown with
`get(·, 0)`; `STYLE` is omitted. -/
theorem compute_metrics_errors_keys (t : String) (d : ℚ)
    (bd : List (String × Nat)) (sc : ℚ) :
    ((compute_metrics t d bd sc).errors).map Prod.fst
        = ["GRAMMAR", "TYPOS", "PUNCTUATION"] ∧
      "STYLE" ∉ ((compute_metrics t d bd sc).errors).map Prod.fst ∧
      List.lookup "GRAMMAR" (compute_metrics t d bd sc).errors
        = some (bdGet bd "GRAMMAR") ∧
      List.lookup "TYPOS" (compute_metrics t d bd sc).errors
        = some (bdGet bd "TYPOS") ∧
      List.lookup "PUNCTUATION" (compute_metrics t d bd sc).errors
        = some (bdGet bd "PUNCTUATION") := by
  refine ⟨rfl, ?_, ?_, ?_, ?_⟩
  · rw [show ((compute_metrics t d bd sc).errors).map Prod.fst
        = ["GRAMMAR", "TYPOS", "PUNCTUATION"] from rfl]
    decide
  all_goals simp [compute_metrics, List.lookup]

/-- C9: the total error count returned by `check_grammar` equals the sum of
the four per-category counts of the returned breakdown: every match is
classified into exactly one category and increments exactly one counter. -/
theorem check_grammar_total_eq_breakdown_sum (ms : List IssueMatch) :
    (check_grammar ms).2.2.2 = (((check_grammar ms).2.2.1).map Prod.snd).sum := by
  have h := foldl_checkStep_sum ms [] 0 0 0 0
  simpa [check_grammar] using h.symm

/-- C2: the classifier is total — every IssueMatch maps to exactly one of
the four categories — and applies its rules in order with first match
winning: the spelling test gives `TYPOS`; else the punctuation keyword
gives `PUNCTUATION` (even when the style keyword also matches); else the
style/readability keywords give `STYLE`; else `GRAMMAR`. -/
theorem classify_error_total_first_match_wins (m : IssueMatch) :
    (classify_error m = "TYPOS" ∨ classify_error m = "PUNCTUATION" ∨
      classify_error m = "STYLE" ∨ classify_error m = "GRAMMAR") ∧
    ((m.ruleId == "MORFOLOGIK_RULE_EN_US"
        || containsSub "spelling" (pyLower m.message)) = true →
      classify_error m = "TYPOS") ∧
    ((m.ruleId == "MORFOLOGIK_RULE_EN_US"
        || containsSub "spelling" (pyLower m.message)) = false →
      containsSub "punctuation" (pyLower m.message) = true →
      classify_error m = "PUNCTUATION") ∧
    ((m.ruleId == "MORFOLOGIK_RULE_EN_US"
        || containsSub "spelling" (pyLower m.message)) = false →
      containsSub "punctuation" (pyLower m.message) = false →
      (containsSub "style" (pyLower m.message)
        || containsSub "readability" (pyLower m.message)) = true →
      classify_error m = "STYLE") ∧
    ((m.ruleId == "MORFOLOGIK_RULE_EN_US"
        || containsSub "spelling" (pyLower m.message)) = false →
      containsSub "punctuation" (pyLower m.message) = false →
      (containsSub "style" (pyLower m.message)
        || containsSub "readability" (pyLower m.message)) = false →
      classify_error m = "GRAMMAR") := by
  refine ⟨classify_error_mem m, ?_, ?_, ?_, ?_⟩
  · intro h1
    simp only [classify_error]
    rw [if_pos h1]
  · intro h1 h2
    simp only [classify_error]
    rw [if_neg (by simp [h1]), if_pos h2]
  · intro h1 h2 h3
    simp only [classify_error]
    rw [if_neg (by simp [h1]), if_neg (by simp [h2]), if_pos h3]
  · intro h1 h2 h3
    simp only [classify_error]
    rw [if_neg (by simp [h1]), if_neg (by simp [h2]), if_neg (by simp [h3])]

/-- Witness for C2: a message containing both the punctuation and the style
keywords is classified `PUNCTUATION`, not `STYLE`. -/
theorem classify_error_total_first_match_wins_witness :
    classify_error
        ⟨"X", "Punctuation and style problem", "ctx", [], 0, 0⟩
      = "PUNCTUATION" :=
  (classify_error_total_first_match_wins
      ⟨"X", "Punctuation and style problem", "ctx", [], 0, 0⟩).2.2.1
    (by decide) (by decide)

/-- C3: words-per-minute equals `word_count / (duration / 60)` rounded to
two decimals when the duration is positive, and `0` whenever the duration
is `≤ 0`, for every transcript; the division is guarded by the positivity
test. -/
theorem compute_metrics_wpm_guard (t : String) (d : ℚ)
    (bd : List (String × Nat)) (sc : ℚ) :
    (d ≤ 0 → (compute_metrics t d bd sc).wpm = 0) ∧
    (0 < d →
      (compute_metrics t d bd sc).wpm
        = pyRound2 ((wordCount t : ℚ) / (d / 60))) := by
  constructor
  · intro h
    simp [compute_metrics, not_lt.mpr h]
  · intro h
    simp [compute_metrics, h]

/-- Witness for C3: at duration `-1` the words-per-minute value is `0`
even though the transcript has words, and at duration `120` seconds a
4-word transcript yields `2` words per minute. -/
theorem compute_metrics_wpm_guard_witness :
    (compute_metrics "some words here now" (-1) [] 0).wpm = 0 ∧
    (compute_metrics "some words here now" 120 [] 0).wpm
      = pyRound2 ((wordCount "some words here now" : ℚ) / (120 / 60)) :=
  ⟨(compute_metrics_wpm_guard "some words here now" (-1) [] 0).1 (by norm_num),
   (compute_metrics_wpm_guard "some words here now" 120 [] 0).2 (by norm_num)⟩

/-- C4: the filler-word count is the sum over the fixed lexicon of the
substring occurrence counts in the lowercased transcript; on the scenario
transcript `"um so like I went"` with duration 10 seconds the word count
is 5, the words-per-minute value is 30, and the filler count is 2. -/
theorem compute_metrics_filler_count_and_scenario :
    (∀ (t : String) (d : ℚ) (bd : List (String × Nat)) (sc : ℚ),
      (compute_metrics t d bd sc).filler_count
        = (FILLER_WORDS.map (fun f => strCount (pyLower t) f)).sum) ∧
    (compute_metrics "um so like I went" 10 (mkBreakdown 0 0 0 0) 100).word_count
        = 5 ∧
    (compute_metrics "um so like I went" 10 (mkBreakdown 0 0 0 0) 100).wpm = 30 ∧
    (compute_metrics "um so like I went" 10 (mkBreakdown 0 0 0 0) 100).filler_count
        = 2 := by
  refine ⟨fun t d bd sc => rfl, by decide, ?_, by decide⟩
  show pyRound2 ((5 : ℚ) / (10 / 60)) = 30
  norm_num [pyRound2]

lemma mem_foldl_dedupStep :
    ∀ (l acc : List String) (y : String),
      y ∈ List.foldl dedupStep acc l ↔ y ∈ acc ∨ y ∈ l := by
  intro l
  induction l with
  | nil =>
    intro acc y
    simp
  | cons x l ih =>
    intro acc y
    rw [List.foldl_cons]
    by_cases hx : x ∈ acc
    · simp only [dedupStep, if_pos hx, ih, List.mem_cons]
      constructor
      · rintro (h | h)
        · exact Or.inl h
        · exact Or.inr (Or.inr h)
      · rintro (h | rfl | h)
        · exact Or.inl h
        · exact Or.inl hx
        · exact Or.inr h
    · simp only [dedupStep, if_neg hx, ih, List.mem_append, List.mem_cons,
        List.mem_singleton]
      tauto

lemma foldl_dedupStep_sublist :
    ∀ (l acc : List String),
      ∃ s, List.foldl dedupStep acc l = acc ++ s ∧ s.Sublist l := by
  intro l
  induction l with
  | nil =>
    intro acc
    exact ⟨[], by simp, List.Sublist.refl []⟩
  | cons x l ih =>
    intro acc
    rw [List.foldl_cons]
    by_cases hx : x ∈ acc
    · obtain ⟨s, hs, hsub⟩ := ih acc
      refine ⟨s, ?_, List.Sublist.cons x hsub⟩
      simpa [dedupStep, hx] using hs
    · obtain ⟨s, hs, hsub⟩ := ih (acc ++ [x])
      refine ⟨x :: s, ?_, List.Sublist.cons₂ x hsub⟩
      simp only [dedupStep, if_neg hx]
      rw [hs, List.append_assoc]
      rfl

lemma foldl_dedupStep_nodup :
    ∀ (l acc : List String), acc.Nodup → (List.foldl dedupStep acc l).Nodup := by
  intro l
  induction l with
  | nil =>
    intro acc h
    simpa using h
  | cons x l ih =>
    intro acc h
    rw [List.foldl_cons]
    by_cases hx : x ∈ acc
    · simpa only [dedupStep, if_pos hx] using ih acc h
    · simp only [dedupStep, if_neg hx]
      refine ih (acc ++ [x]) ?_
      simp [List.nodup_append, h, hx]

/-- C7: the Feedback Generator's suggestion list is deduplicated — it
contains no duplicates, keeps a (first-occurrence-order-preserving)
subsequence of the raw accumulated suggestions with exactly the same
members — and the returned string is the space-join of that list when any
category tag is observed, and the fixed no-feedback sentence (in
particular on the empty input list) otherwise. -/
theorem contextual_feedback_dedup (t : String) (details : List String) :
    (dedupKeepFirst (rawSuggestions details)).Nodup ∧
    (dedupKeepFirst (rawSuggestions details)).Sublist (rawSuggestions details) ∧
    (∀ y, y ∈ dedupKeepFirst (rawSuggestions details) ↔ y ∈ rawSuggestions details) ∧
    (rawSuggestions details = [] →
      contextual_language_feedback t details
        = "No additional contextual feedback available.") ∧
    (rawSuggestions details ≠ [] →
      contextual_language_feedback t details
        = " ".intercalate (dedupKeepFirst (rawSuggestions details))) := by
  refine ⟨foldl_dedupStep_nodup _ [] List.nodup_nil, ?_, ?_, ?_, ?_⟩
  · obtain ⟨s, hs, hsub⟩ := foldl_dedupStep_sublist (rawSuggestions details) []
    rw [dedupKeepFirst, hs]
    simpa using hsub
  · intro y
    rw [dedupKeepFirst, mem_foldl_dedupStep]
    simp
  · intro h
    rw [contextual_language_feedback]
    rw [if_pos]
    rw [List.isEmpty_iff, dedupKeepFirst, h]
    rfl
  · intro h
    rw [contextual_language_feedback]
    rw [if_neg]
    rw [List.isEmpty_iff]
    intro hempty
    refine h (List.eq_nil_iff_forall_not_mem.2 fun y hy => ?_)
    have := (mem_foldl_dedupStep (rawSuggestions details) [] y).2 (Or.inr hy)
    rw [dedupKeepFirst] at hempty
    rw [hempty] at this
    exact List.not_mem_nil y this

/-- Witness for C7: two details both tagged `Category: TYPOS` produce the
typo suggestion exactly once. -/
theorem contextual_feedback_dedup_witness :
    contextual_language_feedback "" ["Category: TYPOS", "Category: TYPOS"]
      = "Review suggested corrections for typos and consider using a spell-checker." := by
  have h :=
    (contextual_feedback_dedup "" ["Category: TYPOS", "Category: TYPOS"]).2.2.2.2
      (by decide)
  rw [h]
  rfl

/-- C8: invoking stop-recording with no active stream, or with an active
stream but zero buffered chunks, writes no file, invokes no pipeline step,
shows no error dialog, leaves the displayed analysis unchanged, and only
sets a status message. -/
theorem stop_recording_no_audio_guard (sess : RecSession) (disp : AnalysisDisplay)
    (tr : Except String String) (check : String → List IssueMatch) (now : ℚ)
    (h : sess.streamActive = false ∨ sess.frames = []) :
    (stop_recording sess disp tr check now).effects = [] ∧
    (stop_recording sess disp tr check now).display = disp ∧
    ((stop_recording sess disp tr check now).statusMsg = "No audio data recorded." ∨
      (stop_recording sess disp tr check now).statusMsg
        = "Recording was not started.") := by
  rcases h with h | h
  · simp [stop_recording, h]
  · by_cases ha : sess.streamActive
    · simp [stop_recording, ha, h]
    · simp [stop_recording, ha]

/-- Witness for C8: stopping with an active stream but an empty chunk
buffer changes nothing and reports the no-audio-data status. -/
theorem stop_recording_no_audio_guard_witness :
    (stop_recording ⟨true, [], 0⟩ ⟨"t", 1, 0, [], "f", ⟨1, 2, 3, 4, []⟩⟩
        (Except.ok "hello") (fun _ => []) 5).effects = [] ∧
    (stop_recording ⟨true, [], 0⟩ ⟨"t", 1, 0, [], "f", ⟨1, 2, 3, 4, []⟩⟩
        (Except.ok "hello") (fun _ => []) 5).display
      = ⟨"t", 1, 0, [], "f", ⟨1, 2, 3, 4, []⟩⟩ ∧
    ((stop_recording ⟨true, [], 0⟩ ⟨"t", 1, 0, [], "f", ⟨1, 2, 3, 4, []⟩⟩
          (Except.ok "hello") (fun _ => []) 5).statusMsg = "No audio data recorded." ∨
      (stop_recording ⟨true, [], 0⟩ ⟨"t", 1, 0, [], "f", ⟨1, 2, 3, 4, []⟩⟩
          (Except.ok "hello") (fun _ => []) 5).statusMsg
        = "Recording was not started.") :=
  stop_recording_no_audio_guard ⟨true, [], 0⟩ ⟨"t", 1, 0, [], "f", ⟨1, 2, 3, 4, []⟩⟩
    (Except.ok "hello") (fun _ => []) 5 (Or.inr rfl)

lemma pyRound2_zero : pyRound2 0 = 0 := by
  norm_num [pyRound2]

/-- C10: a failed transcription yields the empty string instead of
propagating the failure, and the pipeline proceeds on it: with no detected
issues on the empty transcript the analysis reports word count 0,
words-per-minute 0, and score 100. -/
theorem transcribe_failure_graceful (e : String) (dInfo : Except String ℚ)
    (check : String → List IssueMatch) (h : check "" = []) :
    (transcribe_audio (Except.error e)).1 = "" ∧
    ((process_file (Except.error e) dInfo check).1).transcript = "" ∧
    ((process_file (Except.error e) dInfo check).1).metrics.word_count = 0 ∧
    ((process_file (Except.error e) dInfo check).1).metrics.wpm = 0 ∧
    ((process_file (Except.error e) dInfo check).1).score = 100 := by
  refine ⟨rfl, rfl, rfl, ?_, ?_⟩
  · show (compute_metrics "" _ _ _).wpm = 0
    rw [compute_metrics]
    by_cases hd : (0 : ℚ) < (match dInfo with | .ok d => d | .error _ => 0)
    · simp only [hd, if_pos, gt_iff_lt]
      rw [show ((wordCount "" : ℚ)) = 0 by norm_num [wordCount, countWordsAux]]
      rw [zero_div, pyRound2_zero]
    · rw [if_neg (by simpa using hd)]
  · show (check_grammar (check "")).1 = 100
    rw [h]
    show overall_score_of (mkBreakdown 0 0 0 0) = 100
    rw [overall_score_of, weighted_penalty_mk]
    norm_num

/-- Witness for C10: a concrete failed transcription with a checker that
finds no issues on the empty transcript. -/
theorem transcribe_failure_graceful_witness :
    (transcribe_audio (Except.error "boom")).1 = "" ∧
    ((process_file (Except.error "boom") (Except.ok 10) (fun _ => [])).1).transcript
      = "" ∧
    ((process_file (Except.error "boom") (Except.ok 10) (fun _ => [])).1).metrics.word_count
      = 0 ∧
    ((process_file (Except.error "boom") (Except.ok 10) (fun _ => [])).1).metrics.wpm
      = 0 ∧
    ((process_file (Except.error "boom") (Except.ok 10) (fun _ => [])).1).score = 100 :=
  transcribe_failure_graceful "boom" (Except.ok 10) (fun _ => []) rfl

end GSE
